import Mathlib

/-!
Verification of the weaver two-process supervision engine against its
specification.  The definitions below are a shallow embedding of the
Rust sources:

* `src/src/core/merger/v2.rs` (`merge_v2`) and
  `src/src/core/merger/mod.rs` (`merge_binaries`) — the assembler;
* `src/loader-stub/src/main.rs` — the stub's footer parse and payload
  slicing;
* `src/loader-stub/src/common.rs` — `should_enable_health_monitoring`,
  `init_health_status`, `evaluate_health_status`,
  `signal_overload_to_kill` and the timing constants;
* `src/loader-stub/src/{linux,macos,windows}.rs` — the per-OS `run`
  bootstrap, modelled as functions from an environment record (the
  outcomes of the syscalls the code performs) to the ordered trace of
  observable events plus the launcher result;
* `src/src/core/binary/detector/` — the `Architecture`,
  `OperatingSystem` and `BinaryInfo` types and the compatibility check.

Bytes are modelled as `Nat` (values below 256 where produced by the
code), machine integers as `Nat`/`Int` with explicit wrap-around where
the source casts between widths.
-/

namespace Weaver

/-! ## Little-endian byte encoding

`merge_v2` serializes the `repr(C)` `ConfigFooter` by transmuting the
struct to its raw bytes; the stub transmutes back.  On the supported
targets the integer fields are little-endian at fixed offsets (magic at
0, the four `u64` at 8/16/24/32, `grace_period : u32` at 40,
`sync_mode : u8` at 44, three padding bytes, `network_failure_kill_count
: u32` at 48, four tail padding bytes; total size 56). -/

/-- Little-endian encoding of `n` into `k` bytes (the low `8*k` bits). -/
def leBytes : Nat → Nat → List Nat
  | 0, _ => []
  | k + 1, n => n % 256 :: leBytes k (n / 256)

/-- Value of a little-endian byte list. -/
def leVal : List Nat → Nat
  | [] => 0
  | b :: bs => b + 256 * leVal bs

@[simp] theorem leBytes_length (k n : Nat) : (leBytes k n).length = k := by
  induction k generalizing n with
  | zero => rfl
  | succ k ih => simp [leBytes, ih]

theorem leVal_leBytes (k n : Nat) : leVal (leBytes k n) = n % 256 ^ k := by
  induction k generalizing n with
  | zero => simp [leBytes, leVal, Nat.mod_one]
  | succ k ih =>
      simp only [leBytes, leVal, ih]
      rw [pow_succ, Nat.mul_comm (256 ^ k) 256, Nat.mod_mul]

theorem leVal_leBytes_of_lt {k n : Nat} (h : n < 256 ^ k) :
    leVal (leBytes k n) = n := by
  rw [leVal_leBytes, Nat.mod_eq_of_lt h]

/-! ## Configuration footer -/

/-- Shallow embedding of `ConfigFooter` (`loader-stub/src/main.rs` and
`src/core/merger/v2.rs`).  `magic` is the 8 raw bytes; the integer
fields carry the `u64`/`u32`/`u8` values as `Nat`. -/
structure ConfigFooter where
  magic : List Nat
  base_offset : Nat
  base_size : Nat
  overload_offset : Nat
  overload_size : Nat
  grace_period : Nat
  sync_mode : Nat
  network_failure_kill_count : Nat
  deriving Repr, DecidableEq

/-- The magic bytes `b"KILLCODE"`. -/
def MAGIC : List Nat := [75, 73, 76, 76, 67, 79, 68, 69]

/-- Byte size of the `repr(C)` footer struct. -/
def FOOTER_SIZE : Nat := 56

/-- Raw bytes of the footer as laid out by `repr(C)` on the supported
little-endian targets: field bytes at their struct offsets, padding
bytes (offsets 45–47 and 52–55) zero. -/
def serializeFooter (f : ConfigFooter) : List Nat :=
  f.magic ++ leBytes 8 f.base_offset ++ leBytes 8 f.base_size ++
    leBytes 8 f.overload_offset ++ leBytes 8 f.overload_size ++
    leBytes 4 f.grace_period ++ [f.sync_mode % 256] ++ [0, 0, 0] ++
    leBytes 4 f.network_failure_kill_count ++ [0, 0, 0, 0]

theorem serializeFooter_length (f : ConfigFooter) (hm : f.magic.length = 8) :
    (serializeFooter f).length = FOOTER_SIZE := by
  simp [serializeFooter, hm, FOOTER_SIZE]

/-- Footer parse performed by the stub (`main.rs`): the 56 bytes read
from the end of the image are transmuted back to `ConfigFooter` and the
magic is checked. -/
def parseFooter (bs : List Nat) : Option ConfigFooter :=
  if bs.length = FOOTER_SIZE ∧ bs.take 8 = MAGIC then
    some { magic := bs.take 8
           base_offset := leVal ((bs.drop 8).take 8)
           base_size := leVal ((bs.drop 16).take 8)
           overload_offset := leVal ((bs.drop 24).take 8)
           overload_size := leVal ((bs.drop 32).take 8)
           grace_period := leVal ((bs.drop 40).take 4)
           sync_mode := leVal ((bs.drop 44).take 1)
           network_failure_kill_count := leVal ((bs.drop 48).take 4) }
  else none

/-! ## Assembler (`merge_v2`) -/

/-- The footer constructed by `merge_v2`: `base_offset = |stub|`,
`overload_offset = |stub| + |base|`, sizes from the payloads, the three
policy values recorded (`sync_mode` stored as the byte 1 or 0). -/
def mergeFooter (stub base overload : List Nat) (grace_period : Nat)
    (sync_mode : Bool) (network_failure_kill_count : Nat) : ConfigFooter :=
  { magic := MAGIC
    base_offset := stub.length
    base_size := base.length
    overload_offset := stub.length + base.length
    overload_size := overload.length
    grace_period := grace_period
    sync_mode := if sync_mode then 1 else 0
    network_failure_kill_count := network_failure_kill_count }

/-- Output bytes of `merge_v2` (`src/core/merger/v2.rs`): the selected
stub, the base payload, the overload payload and the serialized footer,
in that order. -/
def merge_v2 (stub base overload : List Nat) (grace_period : Nat)
    (sync_mode : Bool) (network_failure_kill_count : Nat) : List Nat :=
  stub ++ base ++ overload ++
    serializeFooter
      (mergeFooter stub base overload grace_period sync_mode
        network_failure_kill_count)

/-! ## Stub self-parse (`main.rs`)

The stub opens its own image, requires the length to be at least the
footer size, reads and validates the footer from the last 56 bytes, and
slices the two payloads with `seek` + `read_exact` (which fails unless
`offset + size ≤ file length`). -/

/-- Footer-parse-and-slice procedure of the stub applied to a launcher
image: yields the base bytes, the overload bytes and the footer. -/
def parseLauncher (file : List Nat) :
    Option (List Nat × List Nat × ConfigFooter) :=
  if file.length < FOOTER_SIZE then none
  else
    (parseFooter (file.drop (file.length - FOOTER_SIZE))).bind fun f =>
      if f.base_offset + f.base_size ≤ file.length ∧
          f.overload_offset + f.overload_size ≤ file.length then
        some ((file.drop f.base_offset).take f.base_size,
          (file.drop f.overload_offset).take f.overload_size, f)
      else none

/-! ## Footer round-trip -/

/-- Extracting a segment of a concatenation at the offset of its prefix
returns the segment. -/
theorem seg_extract (pre seg rest : List Nat) {n m : Nat}
    (hn : pre.length = n) (hm : seg.length = m) :
    ((pre ++ (seg ++ rest)).drop n).take m = seg := by
  rw [List.drop_left' hn, List.take_left' hm]

theorem parseFooter_serializeFooter (f : ConfigFooter) (hm : f.magic = MAGIC)
    (h1 : f.base_offset < 2 ^ 64) (h2 : f.base_size < 2 ^ 64)
    (h3 : f.overload_offset < 2 ^ 64) (h4 : f.overload_size < 2 ^ 64)
    (h5 : f.grace_period < 2 ^ 32) (h6 : f.sync_mode < 256)
    (h7 : f.network_failure_kill_count < 2 ^ 32) :
    parseFooter (serializeFooter f) = some f := by
  obtain ⟨mg, bo, bs, oo, os, gp, sm, k⟩ := f
  simp only at h1 h2 h3 h4 h5 h6 h7
  simp only [ConfigFooter.mk.injEq] at hm
  subst hm
  have hml : MAGIC.length = 8 := rfl
  have h64 : (2 : Nat) ^ 64 = 256 ^ 8 := by norm_num
  have h32 : (2 : Nat) ^ 32 = 256 ^ 4 := by norm_num
  have hlen : (serializeFooter ⟨MAGIC, bo, bs, oo, os, gp, sm, k⟩).length =
      FOOTER_SIZE := serializeFooter_length _ hml
  have hmagic : (serializeFooter ⟨MAGIC, bo, bs, oo, os, gp, sm, k⟩).take 8 =
      MAGIC := by
    rw [show serializeFooter ⟨MAGIC, bo, bs, oo, os, gp, sm, k⟩ =
      MAGIC ++ (leBytes 8 bo ++ (leBytes 8 bs ++ (leBytes 8 oo ++
        (leBytes 8 os ++ (leBytes 4 gp ++ ([sm % 256] ++ ([0, 0, 0] ++
          (leBytes 4 k ++ [0, 0, 0, 0])))))))) from by
        simp [serializeFooter]]
    exact List.take_left' hml
  have hbo : ((serializeFooter ⟨MAGIC, bo, bs, oo, os, gp, sm, k⟩).drop 8).take
      8 = leBytes 8 bo := by
    rw [show serializeFooter ⟨MAGIC, bo, bs, oo, os, gp, sm, k⟩ =
      MAGIC ++ (leBytes 8 bo ++ (leBytes 8 bs ++ (leBytes 8 oo ++
        (leBytes 8 os ++ (leBytes 4 gp ++ ([sm % 256] ++ ([0, 0, 0] ++
          (leBytes 4 k ++ [0, 0, 0, 0])))))))) from by
        simp [serializeFooter]]
    exact seg_extract _ _ _ hml (by simp)
  have hbs : ((serializeFooter ⟨MAGIC, bo, bs, oo, os, gp, sm, k⟩).drop
      16).take 8 = leBytes 8 bs := by
    rw [show serializeFooter ⟨MAGIC, bo, bs, oo, os, gp, sm, k⟩ =
      (MAGIC ++ leBytes 8 bo) ++ (leBytes 8 bs ++ (leBytes 8 oo ++
        (leBytes 8 os ++ (leBytes 4 gp ++ ([sm % 256] ++ ([0, 0, 0] ++
          (leBytes 4 k ++ [0, 0, 0, 0]))))))) from by
        simp [serializeFooter]]
    exact seg_extract _ _ _ (by simp [hml]) (by simp)
  have hoo : ((serializeFooter ⟨MAGIC, bo, bs, oo, os, gp, sm, k⟩).drop
      24).take 8 = leBytes 8 oo := by
    rw [show serializeFooter ⟨MAGIC, bo, bs, oo, os, gp, sm, k⟩ =
      (MAGIC ++ leBytes 8 bo ++ leBytes 8 bs) ++ (leBytes 8 oo ++
        (leBytes 8 os ++ (leBytes 4 gp ++ ([sm % 256] ++ ([0, 0, 0] ++
          (leBytes 4 k ++ [0, 0, 0, 0])))))) from by
        simp [serializeFooter]]
    exact seg_extract _ _ _ (by simp [hml]) (by simp)
  have hos : ((serializeFooter ⟨MAGIC, bo, bs, oo, os, gp, sm, k⟩).drop
      32).take 8 = leBytes 8 os := by
    rw [show serializeFooter ⟨MAGIC, bo, bs, oo, os, gp, sm, k⟩ =
      (MAGIC ++ leBytes 8 bo ++ leBytes 8 bs ++ leBytes 8 oo) ++
        (leBytes 8 os ++ (leBytes 4 gp ++ ([sm % 256] ++ ([0, 0, 0] ++
          (leBytes 4 k ++ [0, 0, 0, 0]))))) from by
        simp [serializeFooter]]
    exact seg_extract _ _ _ (by simp [hml]) (by simp)
  have hgp : ((serializeFooter ⟨MAGIC, bo, bs, oo, os, gp, sm, k⟩).drop
      40).take 4 = leBytes 4 gp := by
    rw [show serializeFooter ⟨MAGIC, bo, bs, oo, os, gp, sm, k⟩ =
      (MAGIC ++ leBytes 8 bo ++ leBytes 8 bs ++ leBytes 8 oo ++
        leBytes 8 os) ++ (leBytes 4 gp ++ ([sm % 256] ++ ([0, 0, 0] ++
          (leBytes 4 k ++ [0, 0, 0, 0])))) from by
        simp [serializeFooter]]
    exact seg_extract _ _ _ (by simp [hml]) (by simp)
  have hsm : ((serializeFooter ⟨MAGIC, bo, bs, oo, os, gp, sm, k⟩).drop
      44).take 1 = [sm % 256] := by
    rw [show serializeFooter ⟨MAGIC, bo, bs, oo, os, gp, sm, k⟩ =
      (MAGIC ++ leBytes 8 bo ++ leBytes 8 bs ++ leBytes 8 oo ++
        leBytes 8 os ++ leBytes 4 gp) ++ ([sm % 256] ++ ([0, 0, 0] ++
          (leBytes 4 k ++ [0, 0, 0, 0]))) from by
        simp [serializeFooter]]
    exact seg_extract _ _ _ (by simp [hml]) (by simp)
  have hk : ((serializeFooter ⟨MAGIC, bo, bs, oo, os, gp, sm, k⟩).drop
      48).take 4 = leBytes 4 k := by
    rw [show serializeFooter ⟨MAGIC, bo, bs, oo, os, gp, sm, k⟩ =
      (MAGIC ++ leBytes 8 bo ++ leBytes 8 bs ++ leBytes 8 oo ++
        leBytes 8 os ++ leBytes 4 gp ++ [sm % 256] ++ [0, 0, 0]) ++
        (leBytes 4 k ++ [0, 0, 0, 0]) from by
        simp [serializeFooter]]
    exact seg_extract _ _ _ (by simp [hml]) (by simp)
  rw [parseFooter, if_pos ⟨hlen, hmagic⟩]
  rw [hmagic, hbo, hbs, hoo, hos, hgp, hsm, hk]
  rw [leVal_leBytes_of_lt (h64 ▸ h1), leVal_leBytes_of_lt (h64 ▸ h2),
    leVal_leBytes_of_lt (h64 ▸ h3), leVal_leBytes_of_lt (h64 ▸ h4),
    leVal_leBytes_of_lt (h32 ▸ h5), leVal_leBytes_of_lt (h32 ▸ h7)]
  simp [leVal, Nat.mod_eq_of_lt h6]

/-- C1: for every base, overload and policy triple, the assembler emits
exactly `stub ++ base ++ overload ++ footer` with
`footer.base_offset = |stub|`, `footer.base_size = |base|`,
`footer.overload_offset = |stub| + |base|`,
`footer.overload_size = |overload|` and the policy values recorded, and
the stub's footer-parse-and-slice procedure applied to the emitted file
recovers exactly the original base bytes, overload bytes and
configuration. -/
theorem C1_assembler_round_trip (stub base overload : List Nat)
    (grace_period kill_count : Nat) (sync : Bool)
    (hlen : stub.length + base.length + overload.length < 2 ^ 64)
    (hgp : grace_period < 2 ^ 32) (hk : kill_count < 2 ^ 32) :
    merge_v2 stub base overload grace_period sync kill_count =
      stub ++ base ++ overload ++
        serializeFooter
          (mergeFooter stub base overload grace_period sync kill_count) ∧
    (mergeFooter stub base overload grace_period sync kill_count) =
      { magic := MAGIC
        base_offset := stub.length
        base_size := base.length
        overload_offset := stub.length + base.length
        overload_size := overload.length
        grace_period := grace_period
        sync_mode := if sync then 1 else 0
        network_failure_kill_count := kill_count } ∧
    parseLauncher (merge_v2 stub base overload grace_period sync kill_count) =
      some (base, overload,
        mergeFooter stub base overload grace_period sync kill_count) := by
  refine ⟨rfl, rfl, ?_⟩
  set f := mergeFooter stub base overload grace_period sync kill_count with hf
  have hml : f.magic.length = 8 := rfl
  have hF : (serializeFooter f).length = FOOTER_SIZE :=
    serializeFooter_length f hml
  have hbo : f.base_offset = stub.length := rfl
  have hbs : f.base_size = base.length := rfl
  have hoo : f.overload_offset = stub.length + base.length := rfl
  have hos : f.overload_size = overload.length := rfl
  have hshape : merge_v2 stub base overload grace_period sync kill_count =
      (stub ++ base ++ overload) ++ serializeFooter f := by
    simp [merge_v2, hf, List.append_assoc]
  have hLlen :
      (merge_v2 stub base overload grace_period sync kill_count).length =
        stub.length + base.length + overload.length + FOOTER_SIZE := by
    rw [hshape]
    simp only [List.length_append, hF]
  have hdrop :
      (merge_v2 stub base overload grace_period sync kill_count).drop
        ((merge_v2 stub base overload grace_period sync
          kill_count).length - FOOTER_SIZE) = serializeFooter f := by
    rw [hLlen, hshape]
    exact List.drop_left' (by simp only [List.length_append]; omega)
  have hparse : parseFooter (serializeFooter f) = some f := by
    refine parseFooter_serializeFooter f rfl ?_ ?_ ?_ ?_ ?_ ?_ ?_
    · rw [hbo]; omega
    · rw [hbs]; omega
    · rw [hoo]; omega
    · rw [hos]; omega
    · exact hgp
    · show (if sync then 1 else 0) < 256
      cases sync <;> norm_num
    · exact hk
  have hbase :
      ((merge_v2 stub base overload grace_period sync kill_count).drop
        f.base_offset).take f.base_size = base := by
    rw [show merge_v2 stub base overload grace_period sync kill_count =
      stub ++ (base ++ (overload ++ serializeFooter f)) from by
        simp [merge_v2, hf, List.append_assoc]]
    rw [hbo, hbs]
    rw [List.drop_left' rfl, List.take_left' rfl]
  have hover :
      ((merge_v2 stub base overload grace_period sync kill_count).drop
        f.overload_offset).take f.overload_size = overload := by
    rw [show merge_v2 stub base overload grace_period sync kill_count =
      (stub ++ base) ++ (overload ++ serializeFooter f) from by
        simp [merge_v2, hf, List.append_assoc]]
    rw [hoo, hos]
    rw [List.drop_left' (by simp), List.take_left' rfl]
  rw [parseLauncher, if_neg (by omega), hdrop, hparse, Option.some_bind]
  rw [if_pos ⟨by rw [hbo, hbs, hLlen]; omega, by rw [hoo, hos, hLlen]; omega⟩]
  rw [hbase, hover]

/-- Closed witness for `C1_assembler_round_trip` at a concrete input. -/
theorem C1_assembler_round_trip_witness :
    (([1, 2] : List Nat).length + ([3] : List Nat).length +
        ([4, 5, 6] : List Nat).length < 2 ^ 64 ∧
      7 < 2 ^ 32 ∧ 9 < 2 ^ 32) ∧
    parseLauncher (merge_v2 [1, 2] [3] [4, 5, 6] 7 true 9) =
      some ([3], [4, 5, 6], mergeFooter [1, 2] [3] [4, 5, 6] 7 true 9) :=
  ⟨⟨by norm_num, by norm_num, by norm_num⟩,
    (C1_assembler_round_trip [1, 2] [3] [4, 5, 6] 7 9 true (by norm_num)
      (by norm_num) (by norm_num)).2.2⟩

/-! ## Health region (`loader-stub/src/common.rs`)

`HealthStatus` is the process-shared record; its `i64`/`i32` fields are
modelled as `Int`.  `current_time()` is a parameter `now`. -/

/-- Shallow embedding of `HealthStatus` (`loader-stub/src/main.rs`). -/
structure HealthStatus where
  last_success : Int
  consecutive_failures : Int
  is_alive : Int
  should_kill_base : Int
  parent_requests_kill : Int
  deriving Repr, DecidableEq

/-- Interpretation of a `u32` value reinterpreted as an `i32` by a Rust
`as i32` cast (two's-complement wrap). -/
def u32AsI32 (n : Nat) : Int :=
  if n % 2 ^ 32 < 2 ^ 31 then ((n % 2 ^ 32 : Nat) : Int)
  else ((n % 2 ^ 32 : Nat) : Int) - 2 ^ 32

/-- Wrap-around of an integer into the `i64` range, as Rust release-mode
`i64` arithmetic does on overflow. -/
def i64Wrap (z : Int) : Int := (z + 2 ^ 63) % 2 ^ 64 - 2 ^ 63

theorem i64Wrap_eq_self {z : Int} (h1 : -(2 ^ 63) ≤ z) (h2 : z < 2 ^ 63) :
    i64Wrap z = z := by
  have h : (z + 2 ^ 63) % 2 ^ 64 = z + 2 ^ 63 :=
    Int.emod_eq_of_lt (by omega) (by omega)
  unfold i64Wrap
  omega

/-- The function `should_enable_health_monitoring` of `common.rs`:
monitoring is enabled iff not sync mode and some policy is nonzero. -/
def should_enable_health_monitoring (sync_mode : Bool) (grace_period : Nat)
    (network_failure_kill_count : Nat) : Bool :=
  !sync_mode && (decide (grace_period > 0) ||
    decide (network_failure_kill_count > 0))

/-- The function `init_health_status` of `common.rs`, written at `now =
current_time()`: the freshly initialized region contents. -/
def init_health_status (now : Int) : HealthStatus :=
  { last_success := now
    is_alive := 1
    consecutive_failures := 0
    should_kill_base := 0
    parent_requests_kill := 0 }

/-- Result of one health-check evaluation (`HealthCheckResult` in
`common.rs`). -/
inductive HealthCheckResult where
  | Ok : HealthCheckResult
  | GracePeriodExceeded (time_since_success : Int) (grace_period : Nat) :
      HealthCheckResult
  | NetworkFailureThreshold (failures : Int) (threshold : Nat) :
      HealthCheckResult
  | OverloadRequestedKill : HealthCheckResult
  | HeartbeatLost : HealthCheckResult
  deriving Repr, DecidableEq

/-- The function `evaluate_health_status` of `common.rs`, with
`current_time()` passed as `now`.  The subtraction
`now - status.last_success` is performed in `i64` and wraps on overflow
(release-mode semantics, `i64Wrap`); the grace comparison casts
`grace_period : u32` to `i64` (lossless); the failure comparison casts
`network_failure_kill_count : u32` to `i32` (wrapping, `u32AsI32`). -/
def evaluate_health_status (now : Int) (status : HealthStatus)
    (grace_period network_failure_kill_count : Nat) : HealthCheckResult :=
  let time_since_success := i64Wrap (now - status.last_success)
  if grace_period > 0 ∧ time_since_success > (grace_period : Int) then
    .GracePeriodExceeded time_since_success grace_period
  else if network_failure_kill_count > 0 ∧
      status.consecutive_failures ≥ u32AsI32 network_failure_kill_count then
    .NetworkFailureThreshold status.consecutive_failures
      network_failure_kill_count
  else if status.should_kill_base ≠ 0 then .OverloadRequestedKill
  else if status.is_alive = 0 then .HeartbeatLost
  else .Ok

/-- Claim C3's rules taken at their word (the comparison of
`consecutive_failures` against `network_failure_kill_count` is on the
numeric value of the threshold, with no `i32` wrap).  This definition
follows the spec text, for comparison with `evaluate_health_status`. -/
def evaluate_health_status_specWords (now : Int) (status : HealthStatus)
    (grace_period network_failure_kill_count : Nat) : HealthCheckResult :=
  let time_since_success := now - status.last_success
  if grace_period > 0 ∧ time_since_success > (grace_period : Int) then
    .GracePeriodExceeded time_since_success grace_period
  else if network_failure_kill_count > 0 ∧
      status.consecutive_failures ≥ (network_failure_kill_count : Int) then
    .NetworkFailureThreshold status.consecutive_failures
      network_failure_kill_count
  else if status.should_kill_base ≠ 0 then .OverloadRequestedKill
  else if status.is_alive = 0 then .HeartbeatLost
  else .Ok

theorem u32AsI32_of_lt {n : Nat} (h : n < 2 ^ 31) :
    u32AsI32 n = (n : Int) := by
  have h32 : n < 2 ^ 32 := by omega
  unfold u32AsI32
  rw [Nat.mod_eq_of_lt h32, if_pos h]

/-- C3 counterexample, two concrete divergences from the claim's rules.
First, at `network_failure_kill_count = 2 ^ 31` the `u32 as i32` cast in
`evaluate_health_status` wraps the threshold to `-2 ^ 31`, so a region
with `consecutive_failures = 0` (and every other field healthy) triggers
`NetworkFailureThreshold` although the claim's rule 2
(`consecutive_failures ≥ network_failure_kill_count`) does not hold and
the claim therefore demands `Ok`.  Second, at
`last_success = -2 ^ 63` (`i64::MIN`) with `now = 0` and
`grace_period = 1`, the `i64` subtraction `now - last_success` wraps to
`-2 ^ 63`, so the code returns `Ok` although the claim's rule 1
(`now − last_success > grace_period`, mathematically `2 ^ 63 > 1`)
demands `GracePeriodExceeded`. -/
theorem C3_counterexample :
    evaluate_health_status 0
        { last_success := 0, consecutive_failures := 0, is_alive := 1,
          should_kill_base := 0, parent_requests_kill := 0 } 0 (2 ^ 31) =
      .NetworkFailureThreshold 0 (2 ^ 31) ∧
    evaluate_health_status_specWords 0
        { last_success := 0, consecutive_failures := 0, is_alive := 1,
          should_kill_base := 0, parent_requests_kill := 0 } 0 (2 ^ 31) =
      .Ok ∧
    evaluate_health_status 0
        { last_success := -(2 ^ 63), consecutive_failures := 0,
          is_alive := 1, should_kill_base := 0,
          parent_requests_kill := 0 } 1 0 = .Ok ∧
    evaluate_health_status_specWords 0
        { last_success := -(2 ^ 63), consecutive_failures := 0,
          is_alive := 1, should_kill_base := 0,
          parent_requests_kill := 0 } 1 0 =
      .GracePeriodExceeded (2 ^ 63) 1 := by
  have hw0 : i64Wrap (0 - (0 : Int)) = 0 := by
    rw [sub_zero]
    exact i64Wrap_eq_self (by norm_num) (by norm_num)
  refine ⟨?_, ?_, ?_, ?_⟩
  · simp [evaluate_health_status, u32AsI32, hw0]
  · simp [evaluate_health_status_specWords]
  · norm_num [evaluate_health_status, i64Wrap]
  · norm_num [evaluate_health_status_specWords]

/-- C3 (amended): for thresholds below `2 ^ 31` (where the `u32 → i32`
cast is value-preserving) and whenever the `i64` difference
`now − last_success` does not overflow, one supervisor evaluation
returns the first matching rule in the fixed order GracePeriodExceeded,
NetworkFailureThreshold, OverloadRequestedKill, HeartbeatLost, else Ok,
with exactly the claim's triggers; a zero `grace_period` disables rule 1
and a zero `network_failure_kill_count` disables rule 2 regardless of
the field values. -/
theorem C3_first_match (now : Int) (s : HealthStatus)
    (grace_period kill_count : Nat) (hkc : kill_count < 2 ^ 31)
    (hlo : -(2 ^ 63) ≤ now - s.last_success)
    (hhi : now - s.last_success < 2 ^ 63) :
    evaluate_health_status now s grace_period kill_count =
      evaluate_health_status_specWords now s grace_period kill_count ∧
    (grace_period = 0 → ∀ t g,
      evaluate_health_status now s grace_period kill_count ≠
        .GracePeriodExceeded t g) ∧
    (kill_count = 0 → ∀ fl t,
      evaluate_health_status now s grace_period kill_count ≠
        .NetworkFailureThreshold fl t) := by
  have hw : i64Wrap (now - s.last_success) = now - s.last_success :=
    i64Wrap_eq_self hlo hhi
  refine ⟨?_, ?_, ?_⟩
  · simp [evaluate_health_status, evaluate_health_status_specWords,
      u32AsI32_of_lt hkc, hw]
  · intro h t g
    subst h
    simp only [evaluate_health_status]
    split_ifs with h1 h2 h3 h4 <;> simp_all
  · intro h fl t
    subst h
    simp only [evaluate_health_status]
    split_ifs with h1 h2 h3 h4 <;> simp_all

/-- Closed witness for `C3_first_match` at a concrete input. -/
theorem C3_first_match_witness :
    (2 < 2 ^ 31 ∧ -(2 ^ 63) ≤ (5 : Int) - 0 ∧ (5 : Int) - 0 < 2 ^ 63) ∧
    evaluate_health_status 5
        { last_success := 0, consecutive_failures := 1, is_alive := 1,
          should_kill_base := 0, parent_requests_kill := 0 } 3 2 =
      evaluate_health_status_specWords 5
        { last_success := 0, consecutive_failures := 1, is_alive := 1,
          should_kill_base := 0, parent_requests_kill := 0 } 3 2 :=
  ⟨⟨by norm_num, by norm_num, by norm_num⟩,
    (C3_first_match 5
      { last_success := 0, consecutive_failures := 1, is_alive := 1,
        should_kill_base := 0, parent_requests_kill := 0 } 3 2
      (by norm_num) (by norm_num) (by norm_num)).1⟩

/-- C10 counterexample: a freshly initialized health region evaluated at
the initialization instant with `network_failure_kill_count = 2 ^ 31`
triggers `NetworkFailureThreshold` (the wrapped threshold is negative),
not `Ok` as the claim states for every configuration. -/
theorem C10_counterexample :
    evaluate_health_status 0 (init_health_status 0) 0 (2 ^ 31) =
      .NetworkFailureThreshold 0 (2 ^ 31) ∧
    evaluate_health_status 0 (init_health_status 0) 0 (2 ^ 31) ≠ .Ok := by
  have hw0 : i64Wrap ((0 : Int) - 0) = 0 := by
    rw [sub_zero]
    exact i64Wrap_eq_self (by norm_num) (by norm_num)
  constructor
  · simp [evaluate_health_status, init_health_status, u32AsI32, hw0]
  · simp [evaluate_health_status, init_health_status, u32AsI32, hw0]

/-- C10 (amended): immediately after initialization the region fields
are `last_success = now`, `is_alive = 1`, `consecutive_failures = 0`,
`should_kill_base = 0`, `parent_requests_kill = 0`, and for every
`grace_period` and every `network_failure_kill_count < 2 ^ 31`,
evaluating the region at the initialization instant returns `Ok`. -/
theorem C10_fresh_region_ok (now : Int) (grace_period kill_count : Nat)
    (hkc : kill_count < 2 ^ 31) :
    init_health_status now =
      { last_success := now, consecutive_failures := 0, is_alive := 1,
        should_kill_base := 0, parent_requests_kill := 0 } ∧
    evaluate_health_status now (init_health_status now) grace_period
      kill_count = .Ok := by
  refine ⟨rfl, ?_⟩
  have hw0 : i64Wrap (now - now) = 0 := by
    rw [sub_self]
    exact i64Wrap_eq_self (by norm_num) (by norm_num)
  simp only [evaluate_health_status, init_health_status,
    u32AsI32_of_lt hkc, hw0]
  rw [if_neg (by rintro ⟨h1, h2⟩; omega), if_neg (by rintro ⟨h1, h2⟩; omega),
    if_neg (by norm_num), if_neg (by norm_num)]

/-- Closed witness for `C10_fresh_region_ok` at a concrete input. -/
theorem C10_fresh_region_ok_witness :
    (3 < 2 ^ 31) ∧
    evaluate_health_status 42 (init_health_status 42) 7 3 = .Ok :=
  ⟨by norm_num, (C10_fresh_region_ok 42 7 3 (by norm_num)).2⟩

/-- The function `signal_overload_to_kill` of `common.rs`: sets
`parent_requests_kill` to 1 and changes nothing else. -/
def signal_overload_to_kill (s : HealthStatus) : HealthStatus :=
  { s with parent_requests_kill := 1 }

/-- Seconds between supervisor iterations (`HEALTH_CHECK_INTERVAL`). -/
def HEALTH_CHECK_INTERVAL : Nat := 5

/-- Seconds granted to the overload after `parent_requests_kill` is set
(`overload_kill_wait_duration` in `common.rs`). -/
def overload_kill_wait_secs : Nat := 15

/-- Milliseconds between SIGTERM and SIGKILL (`force_kill_delay`). -/
def force_kill_delay_millis : Nat := 100

/-! ## Supervisor loop body

`linux.rs`/`macos.rs` dispatch one `evaluate_health_status` result to a
sequence of effects inside the monitor thread; `windows.rs` uses
`TerminateProcess` instead of the SIGTERM/SIGKILL escalation.  The
effects of one dispatch are modelled as an ordered action list. -/

inductive SupAction where
  | writeParentRequestsKill : SupAction
  | sleepSecs (n : Nat) : SupAction
  | sleepMillis (n : Nat) : SupAction
  | sigtermBase : SupAction
  | sigkillBase : SupAction
  | terminateBase : SupAction
  | breakLoop : SupAction
  | continueLoop : SupAction
  deriving Repr, DecidableEq

/-- The `kill_base` helper of `linux.rs`/`macos.rs`: SIGTERM, sleep
100 ms, SIGKILL. -/
def kill_base : List SupAction :=
  [.sigtermBase, .sleepMillis force_kill_delay_millis, .sigkillBase]

/-- Actions performed by one supervisor dispatch on Linux/macOS
(the `match evaluate_health_status(...)` block in `run`). -/
def linuxSupervisorStep : HealthCheckResult → List SupAction
  | .Ok => [.continueLoop]
  | .GracePeriodExceeded _ _ => kill_base ++ [.breakLoop]
  | .NetworkFailureThreshold _ _ =>
      [.writeParentRequestsKill, .sleepSecs overload_kill_wait_secs] ++
        kill_base ++ [.breakLoop]
  | .OverloadRequestedKill => kill_base ++ [.breakLoop]
  | .HeartbeatLost => kill_base ++ [.breakLoop]

/-- Actions performed by one supervisor dispatch on Windows. -/
def windowsSupervisorStep : HealthCheckResult → List SupAction
  | .Ok => [.continueLoop]
  | .GracePeriodExceeded _ _ => [.terminateBase, .breakLoop]
  | .NetworkFailureThreshold _ _ =>
      [.writeParentRequestsKill, .sleepSecs overload_kill_wait_secs,
        .terminateBase, .breakLoop]
  | .OverloadRequestedKill => [.terminateBase, .breakLoop]
  | .HeartbeatLost => [.terminateBase, .breakLoop]

/-! ## Per-OS launcher bootstrap

Each platform's `run` is modelled as a function from the outcomes of
the syscalls it performs (an environment record) to the ordered list of
observable events plus the launcher result (`Except` error = early
`return Err(..)` from `run`; `.ok code` = `std::process::exit(code)`).
The supervisor thread body is modelled separately above; the main
thread's trace records only its spawn. -/

inductive Ev where
  | shmCreate : Ev
  | initHealth : Ev
  | setEnvShm : Ev
  | spawnOverload : Ev
  | asyncStarted : Ev
  | syncWait : Ev
  | verificationOk : Ev
  | verificationFailed : Ev
  | spawnSupervisor : Ev
  | spawnBase : Ev
  | collectBase : Ev
  | sigtermOverload : Ev
  | sigkillOverload : Ev
  | terminateOverload : Ev
  | closeOverloadHandle : Ev
  | closeBaseHandle : Ev
  | removeBaseFile : Ev
  | removeOverloadFile : Ev
  | shmUnlink : Ev
  | unmapView : Ev
  | closeShmHandle : Ev
  | exitProc (code : Int) : Ev
  | exitProcWin (code : Nat) : Ev
  deriving Repr, DecidableEq

/-- Outcome of `waitpid` on a child (POSIX). -/
inductive WaitOutcome where
  | exited (code : Int) : WaitOutcome
  | signaled (sig : Nat) : WaitOutcome
  | stopped : WaitOutcome
  | waitFailed : WaitOutcome
  deriving Repr, DecidableEq

/-- The shared-memory setup block common to the three `run` functions:
attempted only when monitoring should be enabled; on success the region
is initialized and `KILLCODE_HEALTH_SHM` is set; on failure only a
warning is logged. -/
def setupEvents (enable shmOk : Bool) : List Ev :=
  if enable then
    if shmOk then [.shmCreate, .initHealth, .setEnvShm] else [.shmCreate]
  else []

/-- The exit code the launcher derives from the base child's `waitpid`
status: the child's code when it exited, −1 when it was killed by a
signal, −1 (the initial value) otherwise. -/
def baseWaitCode : WaitOutcome → Int
  | .exited c => c
  | .signaled _ => -1
  | .stopped => -1
  | .waitFailed => -1

/-- Termination of the overload after base exit on Linux/macOS:
SIGTERM, then SIGKILL if a non-blocking wait still reports it alive. -/
def posixTerminateOverload (stillAlive : Bool) : List Ev :=
  [.sigtermOverload] ++ (if stillAlive then [.sigkillOverload] else [])

/-- Syscall outcomes driving one execution of `linux.rs::run`. -/
structure LinuxEnv where
  shmOk : Bool
  overloadSpawnOk : Bool
  overloadWait : WaitOutcome
  baseSpawnOk : Bool
  baseWait : WaitOutcome
  overloadAliveAfterTerm : Bool
  deriving Repr, DecidableEq

/-- Base phase of `linux.rs::run`: spawn the supervisor when async
monitoring is armed, fork the base (propagating a fork failure as an
error), collect it, terminate the overload, and exit with the base
code. -/
def linuxBasePhase (f : ConfigFooter) (e : LinuxEnv) (regionOk : Bool)
    (acc : List Ev) : List Ev × Except String Int :=
  let sync : Bool := f.sync_mode != 0
  let supervise : Bool := !sync && regionOk &&
    (decide (f.grace_period > 0) ||
      decide (f.network_failure_kill_count > 0))
  let acc := acc ++ (if supervise then [Ev.spawnSupervisor] else [])
  if !e.baseSpawnOk then (acc, .error "fork failed")
  else
    let code := baseWaitCode e.baseWait
    (acc ++ [Ev.spawnBase, Ev.collectBase] ++
      posixTerminateOverload e.overloadAliveAfterTerm ++
      [Ev.exitProc code], .ok code)

/-- Shallow embedding of `linux.rs::run`.  The overload pid is recorded
on every successful spawn (sync or async), so the post-base overload
termination always runs when the base phase is reached. -/
def linuxRun (f : ConfigFooter) (e : LinuxEnv) :
    List Ev × Except String Int :=
  let sync : Bool := f.sync_mode != 0
  let enable := should_enable_health_monitoring sync f.grace_period
    f.network_failure_kill_count
  let setup := setupEvents enable e.shmOk
  let regionOk := enable && e.shmOk
  if !e.overloadSpawnOk then
    (setup, .error "Failed to start overload binary")
  else if sync then
    match e.overloadWait with
    | .exited c =>
        if c != 0 then
          (setup ++ [Ev.spawnOverload, Ev.syncWait, Ev.verificationFailed],
            .error "Overload verification failed")
        else
          linuxBasePhase f e regionOk
            (setup ++ [Ev.spawnOverload, Ev.syncWait, Ev.verificationOk])
    | .signaled _ =>
        (setup ++ [Ev.spawnOverload, Ev.syncWait],
          .error "Overload terminated abnormally")
    | .stopped =>
        (setup ++ [Ev.spawnOverload, Ev.syncWait],
          .error "Overload terminated abnormally")
    | .waitFailed =>
        (setup ++ [Ev.spawnOverload, Ev.syncWait], .error "waitpid failed")
  else
    linuxBasePhase f e regionOk (setup ++ [Ev.spawnOverload, Ev.asyncStarted])

/-- Syscall outcomes driving one execution of `macos.rs::run`. -/
structure MacosEnv where
  shmOk : Bool
  writeOk : Bool
  overloadSpawnOk : Bool
  overloadWait : WaitOutcome
  baseSpawnOk : Bool
  baseWait : WaitOutcome
  overloadAliveAfterTerm : Bool
  deriving Repr, DecidableEq

/-- Base phase and common cleanup tail of `macos.rs::run`: a base fork
failure yields exit code 1 but still reaches the cleanup; the overload
is terminated only when its pid was kept (async mode); the cleanup
removes the base temp file, the overload temp file unless sync mode,
unlinks the shared-memory name whenever one was chosen (that is,
whenever monitoring should be enabled), then exits with the base
code. -/
def macosBasePhase (f : ConfigFooter) (e : MacosEnv) (enable : Bool)
    (acc : List Ev) (overloadPidSet : Bool) :
    List Ev × Except String Int :=
  let sync : Bool := f.sync_mode != 0
  let supervise : Bool := !sync && (enable && e.shmOk) &&
    (decide (f.grace_period > 0) ||
      decide (f.network_failure_kill_count > 0))
  let acc := acc ++ (if supervise then [Ev.spawnSupervisor] else [])
  let run :=
    if !e.baseSpawnOk then (acc, (1 : Int))
    else
      let code := baseWaitCode e.baseWait
      (acc ++ [Ev.spawnBase, Ev.collectBase] ++
        (if overloadPidSet then
          posixTerminateOverload e.overloadAliveAfterTerm
        else []), code)
  let acc := run.1
  let code := run.2
  (acc ++ [Ev.removeBaseFile] ++
    (if !sync then [Ev.removeOverloadFile] else []) ++
    (if enable then [Ev.shmUnlink] else []) ++ [Ev.exitProc code],
    .ok code)

/-- Shallow embedding of `macos.rs::run`.  The shared-memory name is
chosen whenever monitoring should be enabled (even if creation fails);
payload write failures and overload spawn/verification failures return
early without reaching the cleanup tail. -/
def macosRun (f : ConfigFooter) (e : MacosEnv) :
    List Ev × Except String Int :=
  let sync : Bool := f.sync_mode != 0
  let enable := should_enable_health_monitoring sync f.grace_period
    f.network_failure_kill_count
  let setup := setupEvents enable e.shmOk
  if !e.writeOk then (setup, .error "failed to write binaries")
  else if !e.overloadSpawnOk then (setup, .error "fork failed")
  else if sync then
    match e.overloadWait with
    | .exited c =>
        if c != 0 then
          (setup ++ [Ev.spawnOverload, Ev.syncWait, Ev.verificationFailed,
            Ev.removeBaseFile, Ev.removeOverloadFile] ++
            (if enable then [Ev.shmUnlink] else []),
            .error "Overload verification failed")
        else
          macosBasePhase f e enable
            (setup ++ [Ev.spawnOverload, Ev.syncWait, Ev.verificationOk,
              Ev.removeOverloadFile]) false
    | _ =>
        (setup ++ [Ev.spawnOverload, Ev.syncWait],
          .error "Overload terminated abnormally")
  else
    macosBasePhase f e enable (setup ++ [Ev.spawnOverload, Ev.asyncStarted])
      true

/-- Syscall outcomes driving one execution of `windows.rs::run`.
`overloadExitCode` and `baseExitCode` are the `u32` codes read by
`GetExitCodeProcess`. -/
structure WindowsEnv where
  shmOk : Bool
  writeOk : Bool
  overloadSpawnOk : Bool
  overloadExitCode : Nat
  baseSpawnOk : Bool
  baseExitCode : Nat
  deriving Repr, DecidableEq

/-- Shallow embedding of `windows.rs::run`.  A base spawn failure
terminates the already-running overload and closes its handle before
returning the error; the normal path closes the base handle, removes
the temp files, terminates the overload, unmaps the shared-memory view
and closes its handle, then exits with the base exit code. -/
def windowsRun (f : ConfigFooter) (e : WindowsEnv) :
    List Ev × Except String Nat :=
  let sync : Bool := f.sync_mode != 0
  let enable := should_enable_health_monitoring sync f.grace_period
    f.network_failure_kill_count
  let setup := setupEvents enable e.shmOk
  let regionOk := enable && e.shmOk
  if !e.writeOk then (setup, .error "failed to write binaries")
  else if !e.overloadSpawnOk then
    (setup ++ [Ev.removeBaseFile, Ev.removeOverloadFile],
      .error "CreateProcessA failed")
  else if sync && (e.overloadExitCode != 0) then
    (setup ++ [Ev.spawnOverload, Ev.syncWait, Ev.verificationFailed,
      Ev.closeOverloadHandle, Ev.removeBaseFile, Ev.removeOverloadFile],
      .error "Overload verification failed")
  else
    let acc := setup ++ [Ev.spawnOverload] ++
      (if sync then [Ev.syncWait, Ev.verificationOk] else [Ev.asyncStarted])
    if !e.baseSpawnOk then
      (acc ++ [Ev.terminateOverload, Ev.closeOverloadHandle,
        Ev.removeBaseFile, Ev.removeOverloadFile],
        .error "CreateProcessA failed")
    else
      let supervise : Bool := !sync && regionOk &&
        (decide (f.grace_period > 0) ||
          decide (f.network_failure_kill_count > 0))
      let acc := acc ++ [Ev.spawnBase] ++
        (if supervise then [Ev.spawnSupervisor] else []) ++ [Ev.collectBase]
      (acc ++ [Ev.closeBaseHandle, Ev.removeBaseFile, Ev.terminateOverload,
        Ev.closeOverloadHandle, Ev.removeOverloadFile] ++
        (if regionOk then [Ev.unmapView, Ev.closeShmHandle] else []) ++
        [Ev.exitProcWin e.baseExitCode], .ok e.baseExitCode)

/-! ## Binary identification and assembler entry
(`src/core/binary/detector/`, `src/core/merger/mod.rs`) -/

inductive Architecture where
  | X86 | X86_64 | ARM | AArch64 | MIPS | MIPS64
  | PowerPC | PowerPC64 | RISCV32 | RISCV64 | Unknown
  deriving Repr, DecidableEq

inductive OperatingSystem where
  | Linux | Windows | MacOS | FreeBSD | OpenBSD | NetBSD | Solaris | Unknown
  deriving Repr, DecidableEq

def Architecture.is_supported : Architecture → Bool
  | .X86 | .X86_64 | .ARM | .AArch64 => true
  | _ => false

def OperatingSystem.is_supported : OperatingSystem → Bool
  | .Linux | .Windows | .MacOS => true
  | _ => false

/-- Detected payload identity (`BinaryInfo` in `detector/mod.rs`). -/
structure BinaryInfo where
  arch : Architecture
  os : OperatingSystem
  deriving Repr, DecidableEq

/-- Compatibility of two payloads: equality of both detected
architecture and detected OS (`BinaryInfo::is_compatible_with`). -/
def BinaryInfo.is_compatible_with (a b : BinaryInfo) : Bool :=
  a.arch == b.arch && a.os == b.os

def BinaryInfo.is_supported (i : BinaryInfo) : Bool :=
  i.arch.is_supported && i.os.is_supported

/-- Stub catalog embedded in `merge_v2`: the `(OS, architecture)` pairs
for which a prebuilt stub exists; all other pairs make `merge_v2`
bail. -/
def stubAvailable : OperatingSystem → Architecture → Bool
  | .Linux, .X86_64 | .Linux, .X86 | .Linux, .AArch64 => true
  | .Windows, .X86_64 | .Windows, .X86 | .Windows, .AArch64 => true
  | .MacOS, .X86_64 | .MacOS, .AArch64 => true
  | _, _ => false

inductive MergeError where
  | IncompatiblePayloads : MergeError
  | UnsupportedBinary : MergeError
  | UnsupportedPlatform : MergeError
  deriving Repr, DecidableEq

/-- Shallow embedding of `merge_binaries` (`merger/mod.rs`) after
detection: reject incompatible payloads, then unsupported ones, then
assemble via `merge_v2` (with `grace_period = 0` and
`network_failure_kill_count = 0` as the source hardcodes). -/
def merge_binaries (base_info overload_info : BinaryInfo)
    (stub base overload : List Nat) (sync : Bool) :
    Except MergeError (List Nat) :=
  if !(base_info.is_compatible_with overload_info) then
    .error .IncompatiblePayloads
  else if !base_info.is_supported then .error .UnsupportedBinary
  else if !(stubAvailable base_info.os base_info.arch) then
    .error .UnsupportedPlatform
  else .ok (merge_v2 stub base overload 0 sync 0)

/-- C2: on a run in which shared-memory creation succeeds and the
overload spawns, a supervisor thread is spawned iff `sync_mode = 0` and
(`grace_period > 0` or `network_failure_kill_count > 0`); and whenever
`sync_mode ≠ 0`, no supervisor runs, no health region is created and
`KILLCODE_HEALTH_SHM` is never set. -/
theorem C2_supervisor_iff (f : ConfigFooter) (e : LinuxEnv)
    (hshm : e.shmOk = true) (hov : e.overloadSpawnOk = true) :
    (Ev.spawnSupervisor ∈ (linuxRun f e).1 ↔
      f.sync_mode = 0 ∧
        (0 < f.grace_period ∨ 0 < f.network_failure_kill_count)) ∧
    (f.sync_mode ≠ 0 →
      Ev.spawnSupervisor ∉ (linuxRun f e).1 ∧
      Ev.shmCreate ∉ (linuxRun f e).1 ∧
      Ev.setEnvShm ∉ (linuxRun f e).1) := by
  obtain ⟨shm, ovOk, ovWait, baseOk, baseWait, alive⟩ := e
  simp only at hshm hov
  subst hshm hov
  by_cases hs : f.sync_mode = 0
  · refine ⟨?_, fun h => absurd hs h⟩
    cases baseOk <;> cases alive <;> cases baseWait <;>
      simp [linuxRun, linuxBasePhase, setupEvents,
        should_enable_health_monitoring, hs, posixTerminateOverload,
        baseWaitCode]
  · have hb : (f.sync_mode != 0) = true := by
      simp [bne_iff_ne, hs]
    have key : Ev.spawnSupervisor ∉
        (linuxRun f ⟨true, true, ovWait, baseOk, baseWait, alive⟩).1 ∧
        Ev.shmCreate ∉
          (linuxRun f ⟨true, true, ovWait, baseOk, baseWait, alive⟩).1 ∧
        Ev.setEnvShm ∉
          (linuxRun f ⟨true, true, ovWait, baseOk, baseWait, alive⟩).1 := by
      cases ovWait with
      | exited c =>
          by_cases hc : c = 0
          · subst hc
            cases baseOk <;> cases alive <;> cases baseWait <;>
              simp [linuxRun, linuxBasePhase, setupEvents,
                should_enable_health_monitoring, hb, hs,
                posixTerminateOverload, baseWaitCode]
          · simp [linuxRun, setupEvents, should_enable_health_monitoring,
              hb, hs, hc]
      | signaled s =>
          simp [linuxRun, setupEvents, should_enable_health_monitoring,
            hb, hs]
      | stopped =>
          simp [linuxRun, setupEvents, should_enable_health_monitoring,
            hb, hs]
      | waitFailed =>
          simp [linuxRun, setupEvents, should_enable_health_monitoring,
            hb, hs]
    refine ⟨?_, fun _ => key⟩
    constructor
    · intro hmem
      exact absurd hmem key.1
    · intro hrhs
      exact absurd hrhs.1 hs

/-- Sample async footer (grace period armed) for closed witnesses. -/
def sampleAsyncFooter : ConfigFooter :=
  { magic := MAGIC, base_offset := 0, base_size := 0, overload_offset := 0,
    overload_size := 0, grace_period := 3, sync_mode := 0,
    network_failure_kill_count := 0 }

/-- Sample sync footer for closed witnesses. -/
def sampleSyncFooter : ConfigFooter :=
  { magic := MAGIC, base_offset := 0, base_size := 0, overload_offset := 0,
    overload_size := 0, grace_period := 0, sync_mode := 1,
    network_failure_kill_count := 0 }

/-- Sample all-successful Linux environment for closed witnesses. -/
def sampleLinuxEnv : LinuxEnv :=
  { shmOk := true, overloadSpawnOk := true, overloadWait := .exited 0,
    baseSpawnOk := true, baseWait := .exited 0,
    overloadAliveAfterTerm := false }

/-- Sample all-successful macOS environment for closed witnesses. -/
def sampleMacosEnv : MacosEnv :=
  { shmOk := true, writeOk := true, overloadSpawnOk := true,
    overloadWait := .exited 0, baseSpawnOk := true, baseWait := .exited 0,
    overloadAliveAfterTerm := false }

/-- Sample all-successful Windows environment for closed witnesses. -/
def sampleWindowsEnv : WindowsEnv :=
  { shmOk := true, writeOk := true, overloadSpawnOk := true,
    overloadExitCode := 0, baseSpawnOk := true, baseExitCode := 0 }

/-- Closed witness for `C2_supervisor_iff` at a concrete input. -/
theorem C2_supervisor_iff_witness :
    (Ev.spawnSupervisor ∈ (linuxRun sampleAsyncFooter sampleLinuxEnv).1 ↔
      sampleAsyncFooter.sync_mode = 0 ∧
        (0 < sampleAsyncFooter.grace_period ∨
          0 < sampleAsyncFooter.network_failure_kill_count)) ∧
    (sampleAsyncFooter.sync_mode ≠ 0 →
      Ev.spawnSupervisor ∉ (linuxRun sampleAsyncFooter sampleLinuxEnv).1 ∧
      Ev.shmCreate ∉ (linuxRun sampleAsyncFooter sampleLinuxEnv).1 ∧
      Ev.setEnvShm ∉ (linuxRun sampleAsyncFooter sampleLinuxEnv).1) :=
  C2_supervisor_iff sampleAsyncFooter sampleLinuxEnv rfl rfl

/-- C4: in sync mode, if the overload does not exit with code 0 (nonzero
code or abnormal termination) the base child is never spawned and the
launcher aborts with an error; the base is spawned only after the
overload has exited with code 0 (Linux and macOS). -/
theorem C4_sync_verification_gate (f : ConfigFooter) (le : LinuxEnv)
    (me : MacosEnv) (hsync : f.sync_mode ≠ 0) :
    (le.overloadWait ≠ .exited 0 →
      Ev.spawnBase ∉ (linuxRun f le).1 ∧
        ∃ msg, (linuxRun f le).2 = Except.error msg) ∧
    (Ev.spawnBase ∈ (linuxRun f le).1 → le.overloadWait = .exited 0) ∧
    (me.overloadWait ≠ .exited 0 →
      Ev.spawnBase ∉ (macosRun f me).1 ∧
        ∃ msg, (macosRun f me).2 = Except.error msg) ∧
    (Ev.spawnBase ∈ (macosRun f me).1 → me.overloadWait = .exited 0) := by
  have hb : (f.sync_mode != 0) = true := by simp [bne_iff_ne, hsync]
  obtain ⟨shm, ovOk, ovWait, baseOk, baseWait, alive⟩ := le
  obtain ⟨mshm, mwr, movOk, movWait, mbaseOk, mbaseWait, malive⟩ := me
  refine ⟨?_, ?_, ?_, ?_⟩
  · intro hne
    cases ovOk with
    | false =>
        simp [linuxRun, setupEvents, should_enable_health_monitoring, hb]
    | true =>
        cases ovWait with
        | exited c =>
            have hc : (c != 0) = true := by
              simp only [bne_iff_ne, ne_eq]
              intro h
              exact hne (by simp only at hne ⊢; rw [h])
            simp [linuxRun, setupEvents, should_enable_health_monitoring,
              hb, hc]
        | signaled s =>
            simp [linuxRun, setupEvents, should_enable_health_monitoring,
              hb]
        | stopped =>
            simp [linuxRun, setupEvents, should_enable_health_monitoring,
              hb]
        | waitFailed =>
            simp [linuxRun, setupEvents, should_enable_health_monitoring,
              hb]
  · cases ovOk with
    | false =>
        intro hmem
        exfalso
        simp [linuxRun, setupEvents, should_enable_health_monitoring,
          hb] at hmem
    | true =>
        cases ovWait with
        | exited c =>
            by_cases hc : c = 0
            · intro _
              simp only [hc]
            · intro hmem
              exfalso
              have hcb : (c != 0) = true := by simp [bne_iff_ne, hc]
              simp [linuxRun, setupEvents, should_enable_health_monitoring,
                hb, hcb] at hmem
        | signaled s =>
            intro hmem
            exfalso
            simp [linuxRun, setupEvents, should_enable_health_monitoring,
              hb] at hmem
        | stopped =>
            intro hmem
            exfalso
            simp [linuxRun, setupEvents, should_enable_health_monitoring,
              hb] at hmem
        | waitFailed =>
            intro hmem
            exfalso
            simp [linuxRun, setupEvents, should_enable_health_monitoring,
              hb] at hmem
  · intro hne
    cases mwr with
    | false =>
        simp [macosRun, setupEvents, should_enable_health_monitoring, hb]
    | true =>
        cases movOk with
        | false =>
            simp [macosRun, setupEvents, should_enable_health_monitoring,
              hb]
        | true =>
            cases movWait with
            | exited c =>
                have hc : (c != 0) = true := by
                  simp only [bne_iff_ne, ne_eq]
                  intro h
                  exact hne (by simp only at hne ⊢; rw [h])
                simp [macosRun, setupEvents, should_enable_health_monitoring,
                  hb, hc]
            | signaled s =>
                simp [macosRun, setupEvents, should_enable_health_monitoring,
                  hb]
            | stopped =>
                simp [macosRun, setupEvents, should_enable_health_monitoring,
                  hb]
            | waitFailed =>
                simp [macosRun, setupEvents, should_enable_health_monitoring,
                  hb]
  · cases mwr with
    | false =>
        intro hmem
        exfalso
        simp [macosRun, setupEvents, should_enable_health_monitoring,
          hb] at hmem
    | true =>
        cases movOk with
        | false =>
            intro hmem
            exfalso
            simp [macosRun, setupEvents, should_enable_health_monitoring,
              hb] at hmem
        | true =>
            cases movWait with
            | exited c =>
                by_cases hc : c = 0
                · intro _
                  simp only [hc]
                · intro hmem
                  exfalso
                  have hcb : (c != 0) = true := by simp [bne_iff_ne, hc]
                  simp [macosRun, setupEvents,
                    should_enable_health_monitoring, hb, hcb] at hmem
            | signaled s =>
                intro hmem
                exfalso
                simp [macosRun, setupEvents, should_enable_health_monitoring,
                  hb] at hmem
            | stopped =>
                intro hmem
                exfalso
                simp [macosRun, setupEvents, should_enable_health_monitoring,
                  hb] at hmem
            | waitFailed =>
                intro hmem
                exfalso
                simp [macosRun, setupEvents, should_enable_health_monitoring,
                  hb] at hmem

/-- Sample Linux environment whose overload exits with code 2. -/
def sampleSyncFailLinuxEnv : LinuxEnv :=
  { shmOk := true, overloadSpawnOk := true, overloadWait := .exited 2,
    baseSpawnOk := true, baseWait := .exited 0,
    overloadAliveAfterTerm := false }

/-- Sample macOS environment whose overload exits with code 2. -/
def sampleSyncFailMacosEnv : MacosEnv :=
  { shmOk := true, writeOk := true, overloadSpawnOk := true,
    overloadWait := .exited 2, baseSpawnOk := true, baseWait := .exited 0,
    overloadAliveAfterTerm := false }

/-- Closed witness for `C4_sync_verification_gate` at a concrete
input. -/
theorem C4_sync_verification_gate_witness :
    (sampleSyncFailLinuxEnv.overloadWait ≠ .exited 0 →
      Ev.spawnBase ∉ (linuxRun sampleSyncFooter sampleSyncFailLinuxEnv).1 ∧
        ∃ msg, (linuxRun sampleSyncFooter sampleSyncFailLinuxEnv).2 =
          Except.error msg) ∧
    (Ev.spawnBase ∈ (linuxRun sampleSyncFooter sampleSyncFailLinuxEnv).1 →
      sampleSyncFailLinuxEnv.overloadWait = .exited 0) ∧
    (sampleSyncFailMacosEnv.overloadWait ≠ .exited 0 →
      Ev.spawnBase ∉ (macosRun sampleSyncFooter sampleSyncFailMacosEnv).1 ∧
        ∃ msg, (macosRun sampleSyncFooter sampleSyncFailMacosEnv).2 =
          Except.error msg) ∧
    (Ev.spawnBase ∈ (macosRun sampleSyncFooter sampleSyncFailMacosEnv).1 →
      sampleSyncFailMacosEnv.overloadWait = .exited 0) :=
  C4_sync_verification_gate sampleSyncFooter sampleSyncFailLinuxEnv
    sampleSyncFailMacosEnv (by decide)

/-- Helper: a successful Linux launcher result carries exactly the code
derived from the base child's wait status, and that code is the one
passed to `std::process::exit`. -/
theorem linuxRun_ok_code (f : ConfigFooter) (e : LinuxEnv) (c : Int)
    (hok : (linuxRun f e).2 = Except.ok c) :
    c = baseWaitCode e.baseWait ∧ Ev.exitProc c ∈ (linuxRun f e).1 := by
  obtain ⟨shm, ovOk, ovWait, baseOk, baseWait, alive⟩ := e
  cases ovOk with
  | false => simp [linuxRun, setupEvents] at hok
  | true =>
      cases hsb : (f.sync_mode != 0) with
      | false =>
          cases baseOk with
          | false =>
              simp [linuxRun, linuxBasePhase, hsb, setupEvents] at hok
          | true =>
              have hc : c = baseWaitCode baseWait := by
                simp [linuxRun, linuxBasePhase, hsb, setupEvents,
                  should_enable_health_monitoring,
                  posixTerminateOverload] at hok
                exact hok.symm
              subst hc
              refine ⟨rfl, ?_⟩
              simp [linuxRun, linuxBasePhase, hsb, setupEvents,
                should_enable_health_monitoring, posixTerminateOverload]
      | true =>
          cases ovWait with
          | exited c0 =>
              cases hcb : (c0 != 0) with
              | true => simp [linuxRun, hsb, hcb, setupEvents] at hok
              | false =>
                  have hc0 : c0 = 0 := by
                    simpa [bne_iff_ne] using hcb
                  subst hc0
                  cases baseOk with
                  | false =>
                      simp [linuxRun, linuxBasePhase, hsb,
                        setupEvents] at hok
                  | true =>
                      have hc : c = baseWaitCode baseWait := by
                        simp [linuxRun, linuxBasePhase, hsb, setupEvents,
                          should_enable_health_monitoring,
                          posixTerminateOverload] at hok
                        exact hok.symm
                      subst hc
                      refine ⟨rfl, ?_⟩
                      simp [linuxRun, linuxBasePhase, hsb, setupEvents,
                        should_enable_health_monitoring,
                        posixTerminateOverload]
          | signaled s => simp [linuxRun, hsb, setupEvents] at hok
          | stopped => simp [linuxRun, hsb, setupEvents] at hok
          | waitFailed => simp [linuxRun, hsb, setupEvents] at hok

/-- C5: whenever the base child is spawned and collected, the launcher
exits with the base child's exit code; if the base was killed by a
signal (POSIX) the launcher exits with −1; on Windows a successful run
exits with the base child's `GetExitCodeProcess` code. -/
theorem C5_exit_code_propagation (f : ConfigFooter) (le : LinuxEnv)
    (we : WindowsEnv) (c : Int)
    (hok : (linuxRun f le).2 = Except.ok c) :
    Ev.exitProc c ∈ (linuxRun f le).1 ∧
    (∀ k : Int, le.baseWait = .exited k → c = k) ∧
    (∀ s : Nat, le.baseWait = .signaled s → c = -1) ∧
    (∀ n : Nat, (windowsRun f we).2 = Except.ok n →
      n = we.baseExitCode ∧ Ev.exitProcWin n ∈ (windowsRun f we).1) := by
  obtain ⟨h1, h2⟩ := linuxRun_ok_code f le c hok
  refine ⟨h2, ?_, ?_, ?_⟩
  · intro k hk
    rw [h1, hk]
    rfl
  · intro s hs
    rw [h1, hs]
    rfl
  · intro n hn
    obtain ⟨wshm, wwr, wovOk, wcode, wbaseOk, wbase⟩ := we
    cases wwr with
    | false => simp [windowsRun, setupEvents] at hn
    | true =>
        cases wovOk with
        | false => simp [windowsRun, setupEvents] at hn
        | true =>
            cases wbaseOk with
            | false =>
                cases hsb : (f.sync_mode != 0) <;>
                  cases hcc : (wcode != 0) <;>
                    simp [windowsRun, hsb, hcc, setupEvents] at hn
            | true =>
                cases hsb : (f.sync_mode != 0) with
                | false =>
                    have hb : wbase = n := by
                      simp [windowsRun, hsb, setupEvents,
                        should_enable_health_monitoring] at hn
                      exact hn
                    subst hb
                    refine ⟨rfl, ?_⟩
                    simp [windowsRun, hsb, setupEvents,
                      should_enable_health_monitoring]
                | true =>
                    cases hcc : (wcode != 0) with
                    | true =>
                        simp [windowsRun, hsb, hcc, setupEvents] at hn
                    | false =>
                        have hb : wbase = n := by
                          simp [windowsRun, hsb, hcc, setupEvents,
                            should_enable_health_monitoring] at hn
                          exact hn
                        subst hb
                        refine ⟨rfl, ?_⟩
                        simp [windowsRun, hsb, hcc, setupEvents,
                          should_enable_health_monitoring]

/-- Closed witness for `C5_exit_code_propagation` at a concrete
input. -/
theorem C5_exit_code_propagation_witness :
    Ev.exitProc 0 ∈ (linuxRun sampleAsyncFooter sampleLinuxEnv).1 ∧
    (∀ k : Int, sampleLinuxEnv.baseWait = .exited k → (0 : Int) = k) ∧
    (∀ s : Nat, sampleLinuxEnv.baseWait = .signaled s → (0 : Int) = -1) ∧
    (∀ n : Nat,
      (windowsRun sampleAsyncFooter sampleWindowsEnv).2 = Except.ok n →
      n = sampleWindowsEnv.baseExitCode ∧
        Ev.exitProcWin n ∈ (windowsRun sampleAsyncFooter sampleWindowsEnv).1) :=
  C5_exit_code_propagation sampleAsyncFooter sampleLinuxEnv
    sampleWindowsEnv 0 rfl

/-- C6: on `NetworkFailureThreshold` the supervisor sets
`parent_requests_kill = 1`, waits 15 seconds, then falls back to
terminating the base directly (SIGTERM, 100 ms, SIGKILL on POSIX;
`TerminateProcess` on Windows) and exits its loop; it is the only rule
whose action list writes to the health region, and the only rule whose
action list contains the 15-second wait. -/
theorem C6_network_failure_threshold_actions :
    overload_kill_wait_secs = 15 ∧ force_kill_delay_millis = 100 ∧
    (∀ fl t, linuxSupervisorStep (.NetworkFailureThreshold fl t) =
      [.writeParentRequestsKill, .sleepSecs 15, .sigtermBase,
        .sleepMillis 100, .sigkillBase, .breakLoop]) ∧
    (∀ fl t, windowsSupervisorStep (.NetworkFailureThreshold fl t) =
      [.writeParentRequestsKill, .sleepSecs 15, .terminateBase,
        .breakLoop]) ∧
    (∀ r, SupAction.writeParentRequestsKill ∈ linuxSupervisorStep r →
      ∃ fl t, r = .NetworkFailureThreshold fl t) ∧
    (∀ r, SupAction.sleepSecs 15 ∈ linuxSupervisorStep r →
      ∃ fl t, r = .NetworkFailureThreshold fl t) ∧
    (∀ r, SupAction.writeParentRequestsKill ∈ windowsSupervisorStep r →
      ∃ fl t, r = .NetworkFailureThreshold fl t) ∧
    (∀ r, SupAction.sleepSecs 15 ∈ windowsSupervisorStep r →
      ∃ fl t, r = .NetworkFailureThreshold fl t) ∧
    (∀ s, signal_overload_to_kill s =
      { s with parent_requests_kill := 1 }) := by
  refine ⟨rfl, rfl, fun fl t => rfl, fun fl t => rfl, ?_, ?_, ?_, ?_,
    fun s => rfl⟩
  · intro r hr
    cases r with
    | NetworkFailureThreshold a b => exact ⟨a, b, rfl⟩
    | Ok => simp [linuxSupervisorStep] at hr
    | GracePeriodExceeded a b =>
        simp [linuxSupervisorStep, kill_base] at hr
    | OverloadRequestedKill => simp [linuxSupervisorStep, kill_base] at hr
    | HeartbeatLost => simp [linuxSupervisorStep, kill_base] at hr
  · intro r hr
    cases r with
    | NetworkFailureThreshold a b => exact ⟨a, b, rfl⟩
    | Ok => simp [linuxSupervisorStep] at hr
    | GracePeriodExceeded a b =>
        simp [linuxSupervisorStep, kill_base, force_kill_delay_millis] at hr
    | OverloadRequestedKill =>
        simp [linuxSupervisorStep, kill_base, force_kill_delay_millis] at hr
    | HeartbeatLost =>
        simp [linuxSupervisorStep, kill_base, force_kill_delay_millis] at hr
  · intro r hr
    cases r with
    | NetworkFailureThreshold a b => exact ⟨a, b, rfl⟩
    | Ok => simp [windowsSupervisorStep] at hr
    | GracePeriodExceeded a b => simp [windowsSupervisorStep] at hr
    | OverloadRequestedKill => simp [windowsSupervisorStep] at hr
    | HeartbeatLost => simp [windowsSupervisorStep] at hr
  · intro r hr
    cases r with
    | NetworkFailureThreshold a b => exact ⟨a, b, rfl⟩
    | Ok => simp [windowsSupervisorStep] at hr
    | GracePeriodExceeded a b => simp [windowsSupervisorStep] at hr
    | OverloadRequestedKill => simp [windowsSupervisorStep] at hr
    | HeartbeatLost => simp [windowsSupervisorStep] at hr

/-- Closed witness for `C6_network_failure_threshold_actions`: the
only-rule-that-writes property discharged at a concrete result. -/
theorem C6_network_failure_threshold_actions_witness :
    ∃ fl t, (HealthCheckResult.NetworkFailureThreshold 5 3) =
      .NetworkFailureThreshold fl t :=
  C6_network_failure_threshold_actions.2.2.2.2.1
    (.NetworkFailureThreshold 5 3) (by decide)

/-- C7: the assembler rejects with a compatibility error exactly when
the detected (OS, architecture) of the base differs from that of the
overload, and in that case no output is produced. -/
theorem C7_compatibility_rejection (bi oi : BinaryInfo)
    (stub base overload : List Nat) (sync : Bool) :
    (merge_binaries bi oi stub base overload sync =
        Except.error MergeError.IncompatiblePayloads ↔
      ¬(bi.arch = oi.arch ∧ bi.os = oi.os)) ∧
    (¬(bi.arch = oi.arch ∧ bi.os = oi.os) →
      ∀ out, merge_binaries bi oi stub base overload sync ≠
        Except.ok out) := by
  by_cases hc : bi.arch = oi.arch ∧ bi.os = oi.os
  · have hcb : bi.is_compatible_with oi = true := by
      simp [BinaryInfo.is_compatible_with, hc.1, hc.2]
    refine ⟨⟨?_, fun h => absurd hc h⟩, fun h => absurd hc h⟩
    intro h
    exfalso
    simp only [merge_binaries, hcb, Bool.not_true, Bool.false_eq_true,
      if_false] at h
    split_ifs at h <;> simp_all
  · have hcb : bi.is_compatible_with oi = false := by
      simp only [BinaryInfo.is_compatible_with, Bool.and_eq_false_iff,
        beq_eq_false_iff_ne, ne_eq]
      tauto
    refine ⟨⟨fun _ => hc, fun _ => ?_⟩, fun _ out => ?_⟩
    · simp [merge_binaries, hcb]
    · simp [merge_binaries, hcb]

/-- Closed witness for `C7_compatibility_rejection` at a concrete
input. -/
theorem C7_compatibility_rejection_witness :
    merge_binaries ⟨.X86_64, .Linux⟩ ⟨.AArch64, .Linux⟩ [] [] [] false =
      Except.error MergeError.IncompatiblePayloads :=
  (C7_compatibility_rejection ⟨.X86_64, .Linux⟩ ⟨.AArch64, .Linux⟩
    [] [] [] false).1.mpr (by decide)

/-- Sample Linux environment whose base fork fails (async run,
the overload already running). -/
def sampleBaseSpawnFailEnv : LinuxEnv :=
  { shmOk := true, overloadSpawnOk := true, overloadWait := .exited 0,
    baseSpawnOk := false, baseWait := .exited 0,
    overloadAliveAfterTerm := false }

/-- C8 counterexample: on Linux, when the base fork fails in async mode
the launcher aborts but the already-running overload receives neither
SIGTERM nor SIGKILL before `run` returns — the claim's "the overload is
terminated before the launcher returns" fails on this input. -/
theorem C8_counterexample :
    (linuxRun sampleAsyncFooter sampleBaseSpawnFailEnv).2 =
      Except.error "fork failed" ∧
    Ev.sigtermOverload ∉
      (linuxRun sampleAsyncFooter sampleBaseSpawnFailEnv).1 ∧
    Ev.sigkillOverload ∉
      (linuxRun sampleAsyncFooter sampleBaseSpawnFailEnv).1 ∧
    Ev.terminateOverload ∉
      (linuxRun sampleAsyncFooter sampleBaseSpawnFailEnv).1 := by
  refine ⟨rfl, by decide, by decide, by decide⟩

/-- C8 (amended): a base spawn failure aborts the launch on Linux and
on Windows, and an overload spawn failure likewise aborts; on Windows
the already-running overload is terminated before the launcher
returns, while on Linux the error propagates without any signal being
sent to the overload. -/
theorem C8_base_spawn_failure (f : ConfigFooter) (le : LinuxEnv)
    (we : WindowsEnv) (hbase : le.baseSpawnOk = false)
    (hwb : we.baseSpawnOk = false) (hw1 : we.writeOk = true)
    (hw2 : we.overloadSpawnOk = true) (hsync : f.sync_mode = 0) :
    (∃ msg, (linuxRun f le).2 = Except.error msg) ∧
    Ev.sigtermOverload ∉ (linuxRun f le).1 ∧
    Ev.sigkillOverload ∉ (linuxRun f le).1 ∧
    (∃ msg, (windowsRun f we).2 = Except.error msg) ∧
    Ev.terminateOverload ∈ (windowsRun f we).1 ∧
    (∀ e2 : LinuxEnv, e2.overloadSpawnOk = false →
      ∃ msg, (linuxRun f e2).2 = Except.error msg) := by
  obtain ⟨shm, ovOk, ovWait, baseOk, baseWait, alive⟩ := le
  obtain ⟨wshm, wwr, wovOk, wcode, wbaseOk, wbase⟩ := we
  simp only at hbase hwb hw1 hw2
  subst hbase hwb hw1 hw2
  have hsb : (f.sync_mode != 0) = false := by simp [hsync]
  cases hgk : (decide (f.grace_period > 0) ||
      decide (f.network_failure_kill_count > 0)) with
  | false =>
      refine ⟨?_, ?_, ?_, ?_, ?_, ?_⟩
      · cases ovOk <;>
          simp [linuxRun, linuxBasePhase, setupEvents,
            should_enable_health_monitoring, hsb, hgk]
      · cases ovOk <;> cases shm <;>
          simp [linuxRun, linuxBasePhase, setupEvents,
            should_enable_health_monitoring, hsb, hgk]
      · cases ovOk <;> cases shm <;>
          simp [linuxRun, linuxBasePhase, setupEvents,
            should_enable_health_monitoring, hsb, hgk]
      · cases wshm <;>
          simp [windowsRun, setupEvents, should_enable_health_monitoring,
            hsb, hgk]
      · cases wshm <;>
          simp [windowsRun, setupEvents, should_enable_health_monitoring,
            hsb, hgk]
      · intro e2 h2
        obtain ⟨shm2, ovOk2, ovWait2, baseOk2, baseWait2, alive2⟩ := e2
        simp only at h2
        subst h2
        cases shm2 <;>
          simp [linuxRun, setupEvents, should_enable_health_monitoring,
            hsb, hgk]
  | true =>
      refine ⟨?_, ?_, ?_, ?_, ?_, ?_⟩
      · cases ovOk <;> cases shm <;>
          simp [linuxRun, linuxBasePhase, setupEvents,
            should_enable_health_monitoring, hsb, hgk]
      · cases ovOk <;> cases shm <;>
          simp [linuxRun, linuxBasePhase, setupEvents,
            should_enable_health_monitoring, hsb, hgk]
      · cases ovOk <;> cases shm <;>
          simp [linuxRun, linuxBasePhase, setupEvents,
            should_enable_health_monitoring, hsb, hgk]
      · cases wshm <;>
          simp [windowsRun, setupEvents, should_enable_health_monitoring,
            hsb, hgk]
      · cases wshm <;>
          simp [windowsRun, setupEvents, should_enable_health_monitoring,
            hsb, hgk]
      · intro e2 h2
        obtain ⟨shm2, ovOk2, ovWait2, baseOk2, baseWait2, alive2⟩ := e2
        simp only at h2
        subst h2
        cases shm2 <;>
          simp [linuxRun, setupEvents, should_enable_health_monitoring,
            hsb, hgk]

/-- Closed witness for `C8_base_spawn_failure` at a concrete input. -/
theorem C8_base_spawn_failure_witness :
    (∃ msg, (linuxRun sampleAsyncFooter sampleBaseSpawnFailEnv).2 =
      Except.error msg) ∧
    Ev.sigtermOverload ∉
      (linuxRun sampleAsyncFooter sampleBaseSpawnFailEnv).1 ∧
    Ev.sigkillOverload ∉
      (linuxRun sampleAsyncFooter sampleBaseSpawnFailEnv).1 ∧
    (∃ msg, (windowsRun sampleAsyncFooter
      { shmOk := true, writeOk := true, overloadSpawnOk := true,
        overloadExitCode := 0, baseSpawnOk := false,
        baseExitCode := 0 }).2 = Except.error msg) ∧
    Ev.terminateOverload ∈ (windowsRun sampleAsyncFooter
      { shmOk := true, writeOk := true, overloadSpawnOk := true,
        overloadExitCode := 0, baseSpawnOk := false,
        baseExitCode := 0 }).1 ∧
    (∀ e2 : LinuxEnv, e2.overloadSpawnOk = false →
      ∃ msg, (linuxRun sampleAsyncFooter e2).2 = Except.error msg) :=
  C8_base_spawn_failure sampleAsyncFooter sampleBaseSpawnFailEnv
    { shmOk := true, writeOk := true, overloadSpawnOk := true,
      overloadExitCode := 0, baseSpawnOk := false, baseExitCode := 0 }
    rfl rfl rfl rfl rfl

/-- C9 counterexample: on Linux, a run that creates and initializes the
health region and exits normally never unlinks (`shm_unlink`) nor
explicitly unmaps the region — `linux.rs` contains no `shm_unlink`
call — contradicting the claim that every exit path unmaps and unlinks
the POSIX region. -/
theorem C9_counterexample :
    Ev.initHealth ∈ (linuxRun sampleAsyncFooter sampleLinuxEnv).1 ∧
    (linuxRun sampleAsyncFooter sampleLinuxEnv).2 = Except.ok 0 ∧
    Ev.shmUnlink ∉ (linuxRun sampleAsyncFooter sampleLinuxEnv).1 ∧
    Ev.unmapView ∉ (linuxRun sampleAsyncFooter sampleLinuxEnv).1 := by
  refine ⟨by decide, rfl, by decide, by decide⟩

/-- C9 (amended): the Linux launcher never unlinks the health region on
any path (unmapping is left to process teardown); on macOS every run
that reaches the normal exit unlinks the region name whenever
monitoring was enabled; on Windows the normal exit path unmaps the
view and closes the mapping handle whenever the region was created. -/
theorem C9_shared_memory_cleanup (f : ConfigFooter) :
    (∀ le : LinuxEnv, Ev.shmUnlink ∉ (linuxRun f le).1) ∧
    (∀ me : MacosEnv, ∀ c : Int, (macosRun f me).2 = Except.ok c →
      should_enable_health_monitoring (f.sync_mode != 0) f.grace_period
        f.network_failure_kill_count = true →
      Ev.shmUnlink ∈ (macosRun f me).1) ∧
    (∀ we : WindowsEnv, ∀ n : Nat, (windowsRun f we).2 = Except.ok n →
      we.shmOk = true →
      should_enable_health_monitoring (f.sync_mode != 0) f.grace_period
        f.network_failure_kill_count = true →
      Ev.unmapView ∈ (windowsRun f we).1 ∧
        Ev.closeShmHandle ∈ (windowsRun f we).1) := by
  refine ⟨?_, ?_, ?_⟩
  · intro le
    obtain ⟨shm, ovOk, ovWait, baseOk, baseWait, alive⟩ := le
    cases hsb : (f.sync_mode != 0) <;>
      cases hgk : (decide (f.grace_period > 0) ||
        decide (f.network_failure_kill_count > 0)) <;>
        cases ovOk <;> cases shm <;> cases baseOk <;> cases alive <;>
          cases ovWait <;>
            simp [linuxRun, linuxBasePhase, setupEvents,
              should_enable_health_monitoring, posixTerminateOverload,
              baseWaitCode, hsb, hgk] <;>
            split_ifs <;> simp
  · intro me c hok henb
    obtain ⟨mshm, mwr, movOk, movWait, mbaseOk, mbaseWait, malive⟩ := me
    cases hsb : (f.sync_mode != 0) with
    | true =>
        exfalso
        simp [should_enable_health_monitoring, hsb] at henb
    | false =>
        have henb2 : 0 < f.grace_period ∨
            0 < f.network_failure_kill_count := by
          simpa [should_enable_health_monitoring, hsb] using henb
        cases mwr with
        | false => simp [macosRun, setupEvents] at hok
        | true =>
            cases movOk with
            | false => simp [macosRun, setupEvents] at hok
            | true =>
                cases mbaseOk <;> cases mshm <;>
                  simp [macosRun, macosBasePhase, setupEvents,
                    should_enable_health_monitoring, hsb, henb,
                    posixTerminateOverload] <;>
                  exact henb2
  · intro we n hok hshm henb
    obtain ⟨wshm, wwr, wovOk, wcode, wbaseOk, wbase⟩ := we
    simp only at hshm
    subst hshm
    cases hsb : (f.sync_mode != 0) with
    | true =>
        exfalso
        simp [should_enable_health_monitoring, hsb] at henb
    | false =>
        have henb2 : 0 < f.grace_period ∨
            0 < f.network_failure_kill_count := by
          simpa [should_enable_health_monitoring, hsb] using henb
        cases wwr with
        | false => simp [windowsRun, setupEvents] at hok
        | true =>
            cases wovOk with
            | false => simp [windowsRun, setupEvents] at hok
            | true =>
                cases wbaseOk with
                | false =>
                    simp [windowsRun, setupEvents,
                      should_enable_health_monitoring, hsb] at hok
                | true =>
                    simp [windowsRun, setupEvents,
                      should_enable_health_monitoring, hsb, henb]
                    exact henb2

/-- Closed witness for `C9_shared_memory_cleanup` at a concrete
input. -/
theorem C9_shared_memory_cleanup_witness :
    Ev.shmUnlink ∉ (linuxRun sampleAsyncFooter sampleLinuxEnv).1 ∧
    Ev.shmUnlink ∈ (macosRun sampleAsyncFooter sampleMacosEnv).1 ∧
    (Ev.unmapView ∈ (windowsRun sampleAsyncFooter sampleWindowsEnv).1 ∧
      Ev.closeShmHandle ∈
        (windowsRun sampleAsyncFooter sampleWindowsEnv).1) :=
  ⟨(C9_shared_memory_cleanup sampleAsyncFooter).1 sampleLinuxEnv,
    (C9_shared_memory_cleanup sampleAsyncFooter).2.1 sampleMacosEnv 0 rfl
      (by decide),
    (C9_shared_memory_cleanup sampleAsyncFooter).2.2 sampleWindowsEnv 0 rfl
      rfl (by decide)⟩

end Weaver
